import Mathlib

/-!
Shallow embedding of the ANMP topology core: `NetworkCanvas` from
`anmp/ui/network_canvas.py` and `DataManager` from `anmp/core/data_manager.py`.

Python dictionaries are modelled as insertion-ordered association lists over
string keys (`Dict`), with values in the inductive `Val` (JSON-like: strings,
integers, floats-as-rationals, booleans, arrays, nested dicts).  Python's
`d[k] = v` keeps the position of an existing key and appends a new key, which
`setKey` mirrors; `d.setdefault(k, v)` is `setdefault`; `d.update(other)` is
`dictUpdate`.  Randomness (`random.randint`) and the networkx
`spring_layout` positions are passed as explicit parameters.  Qt graphics
items only mirror the node's data dictionary, so positions are tracked in the
node data alone.
-/

set_option autoImplicit false

namespace ANMP

/-- JSON-like Python values: strings, ints, floats (modelled as rationals),
booleans, lists, and nested dicts. -/
inductive Val where
  | str : String → Val
  | int : Int → Val
  | float : ℚ → Val
  | bool : Bool → Val
  | arr : List Val → Val
  | dict : List (String × Val) → Val

/-- A Python dict with string keys: an insertion-ordered association list. -/
abbrev Dict := List (String × Val)

/-- First-match lookup, `d[k]` / `k in d` (keys are unique in a Python dict). -/
def lookup : Dict → String → Option Val
  | [], _ => none
  | (k, v) :: rest, key => if k = key then some v else lookup rest key

/-- `d[key] = v`: replace in place if the key exists, append otherwise. -/
def setKey : Dict → String → Val → Dict
  | [], key, v => [(key, v)]
  | (k, w) :: rest, key, v =>
      if k = key then (k, v) :: rest else (k, w) :: setKey rest key v

/-- `d.setdefault(key, v)`: append the pair only when the key is absent. -/
def setdefault (d : Dict) (key : String) (v : Val) : Dict :=
  match lookup d key with
  | some _ => d
  | none => d ++ [(key, v)]

/-- `d.update(new)`: set every key of `new` in order. -/
def dictUpdate (d new : Dict) : Dict :=
  new.foldl (fun acc kv => setKey acc kv.1 kv.2) d

@[simp] theorem lookup_nil (key : String) : lookup [] key = none := rfl

@[simp] theorem lookup_cons (k : String) (v : Val) (rest : Dict) (key : String) :
    lookup ((k, v) :: rest) key = if k = key then some v else lookup rest key := rfl

theorem lookup_append (d e : Dict) (key : String) :
    lookup (d ++ e) key =
      match lookup d key with
      | some v => some v
      | none => lookup e key := by
  induction d with
  | nil => simp
  | cons kv rest ih =>
      obtain ⟨k, v⟩ := kv
      by_cases h : k = key <;> simp [h, ih]

@[simp] theorem lookup_setKey_self (d : Dict) (key : String) (v : Val) :
    lookup (setKey d key v) key = some v := by
  induction d with
  | nil => simp [setKey]
  | cons kv rest ih =>
      obtain ⟨k, w⟩ := kv
      by_cases h : k = key <;> simp [setKey, h, ih]

theorem lookup_setKey_ne (d : Dict) (key : String) (v : Val) (key' : String)
    (h : key' ≠ key) : lookup (setKey d key v) key' = lookup d key' := by
  induction d with
  | nil => simp [setKey, Ne.symm h]
  | cons kv rest ih =>
      obtain ⟨k, w⟩ := kv
      by_cases hk : k = key
      · subst hk
        simp [setKey, Ne.symm h]
      · simp [setKey, hk, ih]

theorem lookup_setdefault_ne (d : Dict) (key : String) (v : Val) (key' : String)
    (h : key' ≠ key) : lookup (setdefault d key v) key' = lookup d key' := by
  unfold setdefault
  cases hl : lookup d key with
  | some w => rfl
  | none =>
      rw [lookup_append]
      cases hl' : lookup d key' with
      | some w => rfl
      | none => simp [Ne.symm h]

theorem lookup_setdefault_self (d : Dict) (key : String) (v : Val) :
    lookup (setdefault d key v) key = some ((lookup d key).getD v) := by
  unfold setdefault
  cases hl : lookup d key with
  | some w => simp [hl]
  | none => simp [lookup_append, hl]

theorem lookup_eq_none_of_not_mem_keys (d : Dict) (key : String)
    (h : key ∉ d.map Prod.fst) : lookup d key = none := by
  induction d with
  | nil => rfl
  | cons kv rest ih =>
      obtain ⟨k, v⟩ := kv
      simp only [List.map_cons, List.mem_cons] at h
      push_neg at h
      simp [Ne.symm h.1, ih h.2]

/-- `dictUpdate` takes the value from `new` when the key occurs there
(assuming `new` has unique keys, as every Python dict does), and keeps the
old value otherwise. -/
theorem lookup_dictUpdate (d new : Dict) (key : String)
    (hnd : (new.map Prod.fst).Nodup) :
    lookup (dictUpdate d new) key =
      match lookup new key with
      | some v => some v
      | none => lookup d key := by
  induction new generalizing d with
  | nil => simp [dictUpdate]
  | cons kv rest ih =>
      obtain ⟨k, v⟩ := kv
      simp only [List.map_cons, List.nodup_cons] at hnd
      have hrest := ih (setKey d k v) hnd.2
      simp only [dictUpdate, List.foldl_cons] at hrest ⊢
      by_cases hk : k = key
      · subst hk
        have hnone : lookup rest k = none :=
          lookup_eq_none_of_not_mem_keys rest k hnd.1
        rw [hrest, hnone]
        simp
      · simp only [lookup_cons, hk, if_false]
        rw [hrest]
        cases lookup rest key with
        | some w => rfl
        | none => exact lookup_setKey_ne d k v key (Ne.symm hk)

/-!
The `NetworkCanvas` state (`anmp/ui/network_canvas.py`): `self.nodes` is a
dict `id -> NetworkNode` (each `NetworkNode` only wraps its `node_data`
dict, so we store the data directly), `self.connections` is a dict
`(source_id, target_id) -> NetworkConnection` keyed by the normalised pair
`(min, max)` (each `NetworkConnection` wraps its `connection_data` dict),
and `self.next_node_id` is the id counter, starting at 1.
-/

/-- The data of one `NetworkCanvas`. -/
structure Canvas where
  level : String
  nodes : List (Int × Dict)
  connections : List ((Int × Int) × Dict)
  next_node_id : Int

/-- `NetworkCanvas.__init__(level)`: empty dicts, counter at 1. -/
def Canvas.init (level : String) : Canvas :=
  { level := level, nodes := [], connections := [], next_node_id := 1 }

/-- `node_id in self.nodes`. -/
def Canvas.containsNode (c : Canvas) (node_id : Int) : Bool :=
  c.nodes.any fun p => p.1 == node_id

/-- `self.nodes[node_id]` (first match; canvas node ids are unique). -/
def Canvas.findNode (c : Canvas) (node_id : Int) : Option Dict :=
  (c.nodes.find? fun p => p.1 == node_id).map Prod.snd

/-- `conn_key in self.connections`. -/
def Canvas.hasConnKey (c : Canvas) (key : Int × Int) : Bool :=
  c.connections.any fun p => p.1.1 == key.1 && p.1.2 == key.2

/-- `del self.nodes[node_id]`: drop the (unique) entry with that key. -/
def eraseNodeKey : List (Int × Dict) → Int → List (Int × Dict)
  | [], _ => []
  | (k, d) :: rest, node_id =>
      if k = node_id then rest else (k, d) :: eraseNodeKey rest node_id

/-- `self.nodes[id] = item` (replace in place, append when new). -/
def setNodeKey : List (Int × Dict) → Int → Dict → List (Int × Dict)
  | [], node_id, d => [(node_id, d)]
  | (k, e) :: rest, node_id, d =>
      if k = node_id then (k, d) :: rest
      else (k, e) :: setNodeKey rest node_id d

/-- The node-data preparation of `NetworkCanvas.add_node`: overwrite
`node_data["id"]` with the fresh id, then fill every missing attribute
with its documented default (`rx`/`ry` are the `random.randint` draws for
the `x`/`y` defaults). -/
def addNodeData (node_data : Option Dict) (new_id : Int) (rx ry : ℚ) : Dict :=
  let nd := match node_data with
    | none => [("id", Val.int new_id)]
    | some d => setKey d "id" (Val.int new_id)
  let nd := setdefault nd "name" (Val.str ("Device-" ++ toString new_id))
  let nd := setdefault nd "type" (Val.str "host")
  let nd := setdefault nd "x" (Val.float rx)
  let nd := setdefault nd "y" (Val.float ry)
  let nd := setdefault nd "status" (Val.str "online")
  let nd := setdefault nd "l1" (Val.dict [("ports", Val.arr []), ("location", Val.str "")])
  let nd := setdefault nd "l2" (Val.dict [("mac", Val.str ""), ("vlan", Val.int 1)])
  setdefault nd "l3" (Val.dict
    [("ip", Val.str ("192.168.1." ++ toString new_id)),
     ("mask", Val.str "255.255.255.0"), ("gateway", Val.str "")])

/-- `NetworkCanvas.add_node(node_data)` (network_canvas.py lines 214-238).
Returns the updated canvas and the returned id (`node_data["id"]`, which
the method sets to `next_node_id`). -/
def Canvas.add_node (c : Canvas) (node_data : Option Dict) (rx ry : ℚ) :
    Canvas × Int :=
  ({ c with
     nodes := setNodeKey c.nodes c.next_node_id
       (addNodeData node_data c.next_node_id rx ry),
     next_node_id := c.next_node_id + 1 }, c.next_node_id)

/-- The record-to-node translation inside the loop body of
`add_discovered_nodes`: the `node_data` dict literal built from one
scanner record (`rx`/`ry` are the `random.randint` draws for `x`/`y`).
Records carry a string `"ip"` (as the scanner guarantees;
`node_info["ip"]` would raise otherwise, which is outside the modelled
behaviour, so a missing ip is read as `""`). -/
def discoveredNodeData (node_info : Dict) (rx ry : ℚ) : Dict :=
  let ip := match lookup node_info "ip" with
    | some (Val.str s) => s
    | _ => ""
  [("name", (lookup node_info "name").getD
      (Val.str ("Host-" ++ (ip.splitOn ".").getLastD ""))),
   ("type", (lookup node_info "type").getD (Val.str "host")),
   ("ip", Val.str ip),
   ("mask", (lookup node_info "mask").getD (Val.str "255.255.255.0")),
   ("x", Val.float rx),
   ("y", Val.float ry),
   ("status", (lookup node_info "status").getD (Val.str "online")),
   ("ports", (lookup node_info "ports").getD (Val.arr []))]

/-- `NetworkCanvas.add_discovered_nodes(discovered_nodes)` (lines 254-269).
Each record is paired with the `random.randint(50, 600)`/`(50, 400)` draws
for its `x`/`y`. -/
def Canvas.add_discovered_nodes (c : Canvas)
    (discovered_nodes : List (Dict × ℚ × ℚ)) : Canvas :=
  discovered_nodes.foldl (fun acc r =>
    (acc.add_node (some (discoveredNodeData r.1 r.2.1 r.2.2)) r.2.1 r.2.2).1) c

/-- `NetworkCanvas.update_node(node_data)` (lines 271-282): reads
`node_data["id"]`; when that id is a known node, merges the supplied
fields into the stored dict with `dict.update` and refreshes the
graphics; when the id is unknown the method silently does nothing.
(`node_data` carries an integer `"id"`, as every caller supplies; a
missing id would raise `KeyError`, outside the modelled behaviour.) -/
def Canvas.update_node (c : Canvas) (node_data : Dict) : Canvas :=
  match lookup node_data "id" with
  | some (Val.int node_id) =>
      match c.findNode node_id with
      | some old =>
          { c with nodes := setNodeKey c.nodes node_id (dictUpdate old node_data) }
      | none => c
  | _ => c

/-- `NetworkCanvas.add_connection(source_id, target_id, connection_data)`
(lines 324-350).  The Python method has no `return value` statement on any
path, so every call returns `None`; the second component records that
returned value. -/
def Canvas.add_connection (c : Canvas) (source_id target_id : Int)
    (connection_data : Option Dict) : Canvas × Option Bool :=
  if ¬ (c.containsNode source_id && c.containsNode target_id) then (c, none)
  else if source_id == target_id then (c, none)
  else
    let conn_key := (min source_id target_id, max source_id target_id)
    if c.hasConnKey conn_key then (c, none)
    else
      let cd := match connection_data with
        | none => [("source", Val.int source_id), ("target", Val.int target_id),
                   ("type", Val.str "ethernet")]
        | some d => d
      ({ c with connections := c.connections ++ [(conn_key, cd)] }, none)

/-- `NetworkCanvas.delete_node(node_id)` (lines 294-309): first every
connection whose key mentions the node is deleted (the two-phase
collect-then-`delete_connection` loop of the source removes exactly the
entries whose key component matches, since connection keys are unique),
then the node entry itself is deleted. -/
def Canvas.delete_node (c : Canvas) (node_id : Int) : Canvas :=
  if c.containsNode node_id then
    { c with
      connections := c.connections.filter fun p =>
        !(p.1.1 == node_id || p.1.2 == node_id),
      nodes := eraseNodeKey c.nodes node_id }
  else c

/-- `NetworkCanvas.clear()` (lines 417-426): empty both dicts and reset the
id counter to 1 (the network-cloud pixmap is rendering only). -/
def Canvas.clear (c : Canvas) : Canvas :=
  { c with nodes := [], connections := [], next_node_id := 1 }

/-- The per-node body of the `auto_layout` apply loop: rescale the
normalised position by `x = pos[0] * 300 + 400`, `y = pos[1] * 300 + 300`
and store it in the node's data (the graphics item is moved to the same
point). -/
def layoutNode (pos : Int → ℚ × ℚ) (p : Int × Dict) : Int × Dict :=
  let x := (pos p.1).1 * 300 + 400
  let y := (pos p.1).2 * 300 + 300
  (p.1, setKey (setKey p.2 "x" (Val.float x)) "y" (Val.float y))

/-- `NetworkCanvas.auto_layout()` (lines 368-399).  The positions computed
by `networkx.spring_layout` over the canvas graph (an external library
call, modelled as the parameter `pos`: normalised coordinates per node id)
are rescaled and applied to every node; an empty canvas returns early. -/
def Canvas.auto_layout (c : Canvas) (pos : Int → ℚ × ℚ) : Canvas :=
  if c.nodes.isEmpty then c
  else { c with nodes := c.nodes.map (layoutNode pos) }

/-- `data.get(key, [])` followed by iteration: a present list is iterated,
anything else yields nothing. -/
def getArr (v : Option Val) : List Val :=
  match v with
  | some (Val.arr l) => l
  | _ => []

/-- One iteration of the node-loading loop of `load_data`: an entry of a
saved document is a dict and becomes an `add_node` call (a non-dict entry
would raise inside `add_node`, outside the modelled behaviour); `iv.1` is
the entry's index, used only to select its random draws. -/
def loadNodeStep (rnd : ℕ → ℚ × ℚ) (acc : Canvas) (iv : ℕ × Val) : Canvas :=
  match iv.2 with
  | Val.dict nd => (acc.add_node (some nd) (rnd iv.1).1 (rnd iv.1).2).1
  | _ => acc

/-- One iteration of the connection-loading loop of `load_data`:
`add_connection` runs only when `source` and `target` are both truthy
(Python `if source_id and target_id`: a missing key gives `None` and an id
of `0` is falsy, both skipped). -/
def loadConnStep (acc : Canvas) (v : Val) : Canvas :=
  match v with
  | Val.dict cd =>
      match lookup cd "source", lookup cd "target" with
      | some (Val.int s), some (Val.int t) =>
          if s ≠ 0 ∧ t ≠ 0 then (acc.add_connection s t (some cd)).1 else acc
      | _, _ => acc
  | _ => acc

/-- `NetworkCanvas.load_data(data)` (lines 445-458): `clear`, then
`add_node` for each entry of `data["nodes"]`, then `add_connection` for
each eligible entry of `data["connections"]`.  `rnd` supplies the random
draws available to the nth `add_node` (unused when the entry carries
`x`/`y`). -/
def Canvas.load_data (c : Canvas) (data : Dict) (rnd : ℕ → ℚ × ℚ) : Canvas :=
  let c1 := (getArr (lookup data "nodes")).enum.foldl (loadNodeStep rnd) c.clear
  (getArr (lookup data "connections")).foldl loadConnStep c1

/-!
`DataManager.save_project` / `load_project` (`anmp/core/data_manager.py`,
lines 37-110).  The filesystem is a map from paths to file contents; since
`save_project` serialises its document with `json.dump` and `load_project`
parses it back with `json.load` (a faithful round trip for these values,
both from the Python standard library), file contents are stored as the
`Val` the JSON text denotes.  `datetime.now().isoformat()` results are the
explicit `now` parameters, and the success of the `json.dump` write is the
flag `writeOk`: on a failed dump the path holds a file without the
original content (`open(path, "w")` has already truncated it; the model
uses the empty string).
-/

/-- The filesystem: path → file content, as the JSON value it holds. -/
def FS := String → Option Val

/-- Write a file. -/
def fsSet (fs : FS) (path : String) (v : Val) : FS :=
  fun q => if q = path then some v else fs q

/-- `os.remove` (also the effect of `os.rename` on its source path). -/
def fsRemove (fs : FS) (path : String) : FS :=
  fun q => if q = path then none else fs q

/-- The error outcomes of `DataManager.load_project`: `FileNotFoundError`
for an absent path, and the `ValueError` that every other failure inside
the `try` block (including `_validate_project_data` choking on a non-dict
document) is re-raised as. -/
inductive LoadError where
  | fileNotFound
  | invalidFormat
deriving DecidableEq

/-- `DataManager._validate_project_data(data)` (lines 112-119):
`data.setdefault("topologies", {...})`; the remaining node validation is
elided in the source. -/
def validate_project_data (d : Dict) : Dict :=
  setdefault d "topologies" (Val.dict
    [("l1", Val.dict [("connections", Val.arr [])]),
     ("l2", Val.dict [("connections", Val.arr [])]),
     ("l3", Val.dict [("connections", Val.arr [])])])

/-- The backup rotation and write of `DataManager.save_project` (lines
55-67): if a file exists at `path`, delete any old `path + ".backup"` and
`os.rename` the existing file onto the backup path; then open `path` for
writing and dump the document.  Returns the filesystem, the document, and
the boolean result. -/
def save_write (fs : FS) (data : Dict) (path : String) (writeOk : Bool) :
    FS × Dict × Bool :=
  let fs1 := match fs path with
    | some content =>
        fsSet (fsRemove (fsRemove fs (path ++ ".backup")) path)
          (path ++ ".backup") content
    | none => fs
  if writeOk then (fsSet fs1 path (Val.dict data), data, true)
  else (fsSet fs1 path (Val.str ""), data, false)

/-- `DataManager.save_project(data, file_path)` (lines 37-71).  The
metadata dict is created when absent and its `modified` field is set to
the current time; then the backup rotation and write run.  Every raised
exception is caught and turned into a `False` return — in particular a
document whose `metadata` entry is not a dict raises `TypeError` before
any file is touched. -/
def save_project (fs : FS) (data : Dict) (path now : String) (writeOk : Bool) :
    FS × Dict × Bool :=
  match lookup data "metadata" with
  | some (Val.dict m) =>
      save_write fs (setKey data "metadata"
        (Val.dict (setKey m "modified" (Val.str now)))) path writeOk
  | none =>
      save_write fs (setKey data "metadata"
        (Val.dict [("modified", Val.str now)])) path writeOk
  | some _ => (fs, data, false)

/-- The metadata stamping at the end of `load_project` (lines 98-105):
ensure a `metadata` dict exists, then set its `loaded` field to the
current time; a present but non-dict `metadata` raises `TypeError`,
surfaced as the re-raised `ValueError`. -/
def stamp_loaded (d : Dict) (now : String) : Except LoadError Dict :=
  match lookup d "metadata" with
  | some (Val.dict m) =>
      .ok (setKey d "metadata" (Val.dict (setKey m "loaded" (Val.str now))))
  | none => .ok (setKey d "metadata" (Val.dict [("loaded", Val.str now)]))
  | some _ => .error .invalidFormat

/-- `DataManager.load_project(file_path)` (lines 73-110): raise
`FileNotFoundError` when the path is absent; parse the file (its JSON
value must be a dict, otherwise `_validate_project_data` raises and the
call surfaces a `ValueError`); default the `topologies` section; ensure a
`metadata` dict and stamp its `loaded` field with the current time. -/
def load_project (fs : FS) (path now : String) : Except LoadError Dict :=
  match fs path with
  | none => .error .fileNotFound
  | some (Val.dict d) => stamp_loaded (validate_project_data d) now
  | some _ => .error .invalidFormat

/-!
Drivers for whole-session claims: a list of canvas operations run in
order, collecting the id returned by each `add_node` call.
-/

/-- One user-level canvas operation relevant to the identity claims. -/
inductive CanvasOp where
  | addNode (node_data : Option Dict) (rx ry : ℚ)
  | clearCanvas

/-- Run a list of operations, returning the final canvas and every id
returned by an `add_node` call, in order. -/
def runOps (c : Canvas) : List CanvasOp → Canvas × List Int
  | [] => (c, [])
  | CanvasOp.addNode nd rx ry :: rest =>
      let r := c.add_node nd rx ry
      let s := runOps r.1 rest
      (s.1, r.2 :: s.2)
  | CanvasOp.clearCanvas :: rest => runOps c.clear rest

/-- Run a list of `add_node` inputs (no other operation in between). -/
def runAddNodes (c : Canvas) (inputs : List (Option Dict × ℚ × ℚ)) :
    Canvas × List Int :=
  runOps c (inputs.map fun i => CanvasOp.addNode i.1 i.2.1 i.2.2)

/-! Basic facts about `add_node` and the id counter. -/

theorem add_node_snd (c : Canvas) (nd : Option Dict) (rx ry : ℚ) :
    (c.add_node nd rx ry).2 = c.next_node_id := rfl

theorem add_node_next (c : Canvas) (nd : Option Dict) (rx ry : ℚ) :
    (c.add_node nd rx ry).1.next_node_id = c.next_node_id + 1 := rfl

/-- The ids returned by a run of `add_node` calls are the consecutive
counter values starting at the canvas's `next_node_id`. -/
theorem runAddNodes_ids (c : Canvas) (inputs : List (Option Dict × ℚ × ℚ)) :
    (runAddNodes c inputs).2
      = (List.range inputs.length).map (fun j : ℕ => c.next_node_id + (j : Int)) := by
  induction inputs generalizing c with
  | nil => rfl
  | cons i rest ih =>
      show c.next_node_id :: (runAddNodes (c.add_node i.1 i.2.1 i.2.2).1 rest).2 = _
      rw [ih, add_node_next, List.length_cons, List.range_succ_eq_map]
      rw [List.map_cons, List.map_map]
      refine congrArg₂ _ (by simp) ?_
      apply List.map_congr_left
      intro j _
      show c.next_node_id + 1 + (j : Int) = c.next_node_id + ((j + 1 : ℕ) : Int)
      push_cast
      ring

/-- C1 (counterexample): in the session `add_node; clear; add_node` the two
`add_node` calls both return id 1 — `clear` resets `next_node_id` to 1, so
an id is reused across an intervening clear/new-project of the canvas. -/
theorem clear_resets_ids_cex :
    (runOps (Canvas.init "l1")
        [CanvasOp.addNode none 0 0, CanvasOp.clearCanvas,
         CanvasOp.addNode none 0 0]).2 = [1, 1] ∧
      ¬ ([1, 1] : List Int).Nodup :=
  ⟨rfl, by decide⟩

/-- C1 (amended): within one running session, the ids returned by any
sequence of `add_node` calls with no intervening `clear` are pairwise
distinct — the canvas id counter increases by one per call and is never
decremented by `add_node` itself.  (After a `clear`, the counter restarts
at 1 and ids are reused, as the counterexample shows.) -/
theorem addNode_ids_nodup (c : Canvas) (inputs : List (Option Dict × ℚ × ℚ)) :
    ((runAddNodes c inputs).2).Nodup := by
  rw [runAddNodes_ids]
  refine List.Nodup.map ?_ (List.nodup_range _)
  intro a b hab
  simpa using hab

/-- C2 (counterexample): `add_connection` returns `None` on every path —
with nodes 1 and 2 present and no prior connection, the first call's
return value is `None`, not `true` as the claim states. -/
theorem add_connection_returns_none_cex :
    ((Canvas.mk "l2" [(1, []), (2, [])] [] 3).add_connection 1 2 none).2 = none ∧
      ¬ ((Canvas.mk "l2" [(1, []), (2, [])] [] 3).add_connection 1 2 none).2
        = some true :=
  ⟨by decide, by decide⟩

/-- C2 (amended): for node ids `a ≠ b` both present and with no existing
connection for the unordered pair, calling `add_connection(a, b)` twice
leaves exactly one connection for the pair — the first call inserts it and
the second call is a state no-op — but both calls return `None` (the
Python method returns no boolean). -/
theorem add_connection_second_call_noop (c : Canvas) (a b : Int)
    (ha : c.containsNode a = true) (hb : c.containsNode b = true)
    (hab : a ≠ b)
    (hkey : c.hasConnKey (min a b, max a b) = false) :
    (c.add_connection a b none).2 = none ∧
    ((c.add_connection a b none).1.add_connection a b none).2 = none ∧
    ((c.add_connection a b none).1.add_connection a b none).1
      = (c.add_connection a b none).1 ∧
    (c.add_connection a b none).1.connections.countP
      (fun p => p.1.1 == min a b && p.1.2 == max a b) = 1 := by
  have hne : (a == b) = false := by simp [hab]
  have hcd : c.add_connection a b none =
      ({ c with connections := c.connections ++ [((min a b, max a b),
          [("source", Val.int a), ("target", Val.int b),
           ("type", Val.str "ethernet")])] }, none) := by
    unfold Canvas.add_connection
    rw [ha, hb, hne]
    simp [hkey]
  have ha1 : Canvas.containsNode { c with connections := c.connections ++
      [((min a b, max a b), [("source", Val.int a), ("target", Val.int b),
        ("type", Val.str "ethernet")])] } a = true := ha
  have hb1 : Canvas.containsNode { c with connections := c.connections ++
      [((min a b, max a b), [("source", Val.int a), ("target", Val.int b),
        ("type", Val.str "ethernet")])] } b = true := hb
  have hkey1 : Canvas.hasConnKey { c with connections := c.connections ++
      [((min a b, max a b), [("source", Val.int a), ("target", Val.int b),
        ("type", Val.str "ethernet")])] } (min a b, max a b) = true := by
    simp [Canvas.hasConnKey]
  have hcd2 : Canvas.add_connection { c with connections := c.connections ++
      [((min a b, max a b), [("source", Val.int a), ("target", Val.int b),
        ("type", Val.str "ethernet")])] } a b none
      = ({ c with connections := c.connections ++
          [((min a b, max a b), [("source", Val.int a), ("target", Val.int b),
            ("type", Val.str "ethernet")])] }, none) := by
    unfold Canvas.add_connection
    rw [ha1, hb1, hne]
    simp [hkey1]
  have hcount0 : c.connections.countP
      (fun p => p.1.1 == min a b && p.1.2 == max a b) = 0 := by
    rw [List.countP_eq_zero]
    intro p hp hpp
    have hc : c.hasConnKey (min a b, max a b) = true := by
      unfold Canvas.hasConnKey
      rw [List.any_eq_true]
      exact ⟨p, hp, hpp⟩
    rw [hkey] at hc
    exact absurd hc (by simp)
  refine ⟨by rw [hcd], ?_, ?_, ?_⟩
  · rw [hcd]
    exact congrArg Prod.snd hcd2
  · rw [hcd]
    exact congrArg Prod.fst hcd2
  · rw [hcd]
    show (c.connections ++ _).countP _ = 1
    rw [List.countP_append, hcount0]
    simp

/-- C2 (witness): the amended theorem applied to a two-node canvas. -/
theorem add_connection_second_call_noop_witness :
    ((Canvas.mk "l2" [(1, []), (2, [])] [] 3).containsNode 1 = true ∧
     (Canvas.mk "l2" [(1, []), (2, [])] [] 3).containsNode 2 = true ∧
     (1 : Int) ≠ 2 ∧
     (Canvas.mk "l2" [(1, []), (2, [])] [] 3).hasConnKey (min 1 2, max 1 2)
       = false) ∧
    (((Canvas.mk "l2" [(1, []), (2, [])] [] 3).add_connection 1 2 none).2
        = none ∧
     (((Canvas.mk "l2" [(1, []), (2, [])] [] 3).add_connection 1 2
        none).1.add_connection 1 2 none).2 = none ∧
     (((Canvas.mk "l2" [(1, []), (2, [])] [] 3).add_connection 1 2
        none).1.add_connection 1 2 none).1
       = ((Canvas.mk "l2" [(1, []), (2, [])] [] 3).add_connection 1 2 none).1 ∧
     ((Canvas.mk "l2" [(1, []), (2, [])] [] 3).add_connection 1 2
        none).1.connections.countP
       (fun p => p.1.1 == min 1 2 && p.1.2 == max 1 2) = 1) :=
  ⟨⟨by decide, by decide, by decide, by decide⟩,
   add_connection_second_call_noop (Canvas.mk "l2" [(1, []), (2, [])] [] 3)
     1 2 (by decide) (by decide) (by decide) (by decide)⟩

/-! Helper lemmas about node-key lists, for `delete_node`. -/

theorem anyKey_eq_false_of_not_mem (l : List (Int × Dict)) (x : Int)
    (h : x ∉ l.map Prod.fst) : (l.any fun p => p.1 == x) = false := by
  induction l with
  | nil => rfl
  | cons kv rest ih =>
      obtain ⟨k, d⟩ := kv
      simp only [List.map_cons, List.mem_cons] at h
      push_neg at h
      simp [Ne.symm h.1, ih h.2]

theorem eraseNodeKey_keys (l : List (Int × Dict)) (x : Int) :
    (eraseNodeKey l x).map Prod.fst = (l.map Prod.fst).erase x := by
  induction l with
  | nil => rfl
  | cons kv rest ih =>
      obtain ⟨k, d⟩ := kv
      by_cases hk : k = x
      · subst hk
        simp [eraseNodeKey, List.erase_cons_head]
      · simp [eraseNodeKey, hk, List.erase_cons_tail, ih]

/-- C3: for a node id `x` present in a canvas (whose node keys are unique,
as every canvas reachable through the API is), after `delete_node(x)` no
connection in that canvas references `x`, every other node remains present
(the node-key list is exactly the old one with `x` removed), and `x`
itself is gone.  The embedding mirrors the source order: connections
referencing `x` are filtered out before the node entry is erased. -/
theorem delete_node_cascade (c : Canvas) (x : Int)
    (hx : c.containsNode x = true)
    (hnd : (c.nodes.map Prod.fst).Nodup) :
    (c.delete_node x).connections.all
        (fun p => !(p.1.1 == x) && !(p.1.2 == x)) = true ∧
    (c.delete_node x).containsNode x = false ∧
    (c.delete_node x).nodes.map Prod.fst = (c.nodes.map Prod.fst).erase x := by
  have hdn : c.delete_node x =
      { c with
        connections := c.connections.filter fun p =>
          !(p.1.1 == x || p.1.2 == x),
        nodes := eraseNodeKey c.nodes x } := by
    unfold Canvas.delete_node
    rw [hx]
    simp
  refine ⟨?_, ?_, ?_⟩
  · rw [hdn]
    rw [List.all_eq_true]
    intro p hp
    have hmem := (List.mem_filter.mp hp).2
    simpa [Bool.not_or] using hmem
  · rw [hdn]
    show (eraseNodeKey c.nodes x).any (fun p => p.1 == x) = false
    apply anyKey_eq_false_of_not_mem
    rw [eraseNodeKey_keys]
    intro hmem
    exact ((List.Nodup.mem_erase_iff hnd).mp hmem).1 rfl
  · rw [hdn]
    exact eraseNodeKey_keys c.nodes x

/-- C3 (witness): the cascade theorem applied to a two-node canvas with
one connection between the nodes. -/
theorem delete_node_cascade_witness :
    ((Canvas.mk "l1" [(1, []), (2, [])] [((1, 2), [])] 3).containsNode 1
        = true ∧
     ((Canvas.mk "l1" [(1, []), (2, [])] [((1, 2), [])] 3).nodes.map
        Prod.fst).Nodup) ∧
    ((Canvas.mk "l1" [(1, []), (2, [])] [((1, 2), [])] 3).delete_node
          1).connections.all (fun p => !(p.1.1 == 1) && !(p.1.2 == 1))
        = true ∧
    ((Canvas.mk "l1" [(1, []), (2, [])] [((1, 2), [])] 3).delete_node
        1).containsNode 1 = false ∧
    ((Canvas.mk "l1" [(1, []), (2, [])] [((1, 2), [])] 3).delete_node
        1).nodes.map Prod.fst
      = (((Canvas.mk "l1" [(1, []), (2, [])] [((1, 2), [])] 3).nodes.map
          Prod.fst).erase 1) :=
  ⟨⟨by decide, by decide⟩,
   delete_node_cascade (Canvas.mk "l1" [(1, []), (2, [])] [((1, 2), [])] 3)
     1 (by decide) (by decide)⟩

/-! The canvas id invariant: every node key is below the id counter.  It
holds for the empty canvas and is preserved by every operation that adds
nodes, so it holds for every canvas reachable through the API. -/

/-- Every node key is strictly below `next_node_id`. -/
def Canvas.keysBelow (c : Canvas) : Prop :=
  ∀ k ∈ c.nodes.map Prod.fst, k < c.next_node_id

instance (c : Canvas) : Decidable c.keysBelow := by
  unfold Canvas.keysBelow
  infer_instance

theorem setNodeKey_of_not_mem (l : List (Int × Dict)) (i : Int) (d : Dict)
    (h : i ∉ l.map Prod.fst) : setNodeKey l i d = l ++ [(i, d)] := by
  induction l with
  | nil => rfl
  | cons kv rest ih =>
      obtain ⟨k, e⟩ := kv
      simp only [List.map_cons, List.mem_cons] at h
      push_neg at h
      simp [setNodeKey, Ne.symm h.1, ih h.2]

theorem add_node_keys (c : Canvas) (nd : Option Dict) (rx ry : ℚ)
    (h : c.next_node_id ∉ c.nodes.map Prod.fst) :
    (c.add_node nd rx ry).1.nodes.map Prod.fst
      = c.nodes.map Prod.fst ++ [c.next_node_id] := by
  show (setNodeKey c.nodes c.next_node_id _).map Prod.fst = _
  rw [setNodeKey_of_not_mem _ _ _ h]
  simp

theorem add_node_length (c : Canvas) (nd : Option Dict) (rx ry : ℚ)
    (h : c.next_node_id ∉ c.nodes.map Prod.fst) :
    (c.add_node nd rx ry).1.nodes.length = c.nodes.length + 1 := by
  show (setNodeKey c.nodes c.next_node_id _).length = _
  rw [setNodeKey_of_not_mem _ _ _ h]
  simp

theorem keysBelow_not_mem (c : Canvas) (h : c.keysBelow) :
    c.next_node_id ∉ c.nodes.map Prod.fst :=
  fun hm => lt_irrefl _ (h _ hm)

theorem add_node_keysBelow (c : Canvas) (nd : Option Dict) (rx ry : ℚ)
    (h : c.keysBelow) : (c.add_node nd rx ry).1.keysBelow := by
  intro k hk
  rw [add_node_keys c nd rx ry (keysBelow_not_mem c h)] at hk
  rw [add_node_next]
  rcases List.mem_append.mp hk with hk | hk
  · exact lt_trans (h _ hk) (lt_add_one _)
  · rw [List.mem_singleton.mp hk]
    exact lt_add_one _

theorem add_discovered_nodes_len (c : Canvas) (recs : List (Dict × ℚ × ℚ))
    (h : c.keysBelow) :
    (c.add_discovered_nodes recs).nodes.length
        = c.nodes.length + recs.length ∧
      (c.add_discovered_nodes recs).keysBelow := by
  induction recs generalizing c with
  | nil => exact ⟨rfl, h⟩
  | cons r rest ih =>
      have hstep := ih
        (c.add_node (some (discoveredNodeData r.1 r.2.1 r.2.2)) r.2.1 r.2.2).1
        (add_node_keysBelow c _ r.2.1 r.2.2 h)
      unfold Canvas.add_discovered_nodes at hstep ⊢
      rw [List.foldl_cons]
      refine ⟨?_, hstep.2⟩
      rw [hstep.1, add_node_length c _ r.2.1 r.2.2 (keysBelow_not_mem c h)]
      simp [List.length_cons]
      omega

/-- C4 (counterexample): Discovery Merge is not idempotent — merging the
single record `{ip: "10.0.0.5"}` into an empty canvas once yields 1 node,
and running the same merge a second time yields 2 nodes, because
`add_discovered_nodes` never checks whether the address is already
present. -/
theorem discovery_merge_not_idempotent_cex :
    ((Canvas.init "l1").add_discovered_nodes
        [([("ip", Val.str "10.0.0.5")], 60, 60)]).nodes.length = 1 ∧
    (((Canvas.init "l1").add_discovered_nodes
          [([("ip", Val.str "10.0.0.5")], 60, 60)]).add_discovered_nodes
        [([("ip", Val.str "10.0.0.5")], 60, 60)]).nodes.length = 2 ∧
    ¬ ((((Canvas.init "l1").add_discovered_nodes
            [([("ip", Val.str "10.0.0.5")], 60, 60)]).add_discovered_nodes
          [([("ip", Val.str "10.0.0.5")], 60, 60)]).nodes.length
        = ((Canvas.init "l1").add_discovered_nodes
            [([("ip", Val.str "10.0.0.5")], 60, 60)]).nodes.length) :=
  ⟨by decide, by decide, by decide⟩

/-- C4 (amended): Discovery Merge performs no address deduplication — it
unconditionally creates one node per input record, so one run over a list
of n records adds n nodes and running the merge twice with the same list
adds 2·n nodes (for a canvas satisfying the id invariant). -/
theorem add_discovered_nodes_count (c : Canvas) (recs : List (Dict × ℚ × ℚ))
    (h : c.keysBelow) :
    (c.add_discovered_nodes recs).nodes.length
        = c.nodes.length + recs.length ∧
    ((c.add_discovered_nodes recs).add_discovered_nodes recs).nodes.length
        = c.nodes.length + 2 * recs.length := by
  have h1 := add_discovered_nodes_len c recs h
  have h2 := add_discovered_nodes_len _ recs h1.2
  refine ⟨h1.1, ?_⟩
  rw [h2.1, h1.1]
  ring

/-- C4 (witness): the count theorem applied to an empty canvas and a
one-record list. -/
theorem add_discovered_nodes_count_witness :
    (Canvas.init "l1").keysBelow ∧
    (((Canvas.init "l1").add_discovered_nodes
          [([("ip", Val.str "10.0.0.5")], 60, 60)]).nodes.length
        = (Canvas.init "l1").nodes.length + 1 ∧
      ((((Canvas.init "l1").add_discovered_nodes
            [([("ip", Val.str "10.0.0.5")], 60, 60)]).add_discovered_nodes
          [([("ip", Val.str "10.0.0.5")], 60, 60)]).nodes.length
        = (Canvas.init "l1").nodes.length + 2 * 1)) :=
  ⟨by decide,
   add_discovered_nodes_count (Canvas.init "l1")
     [([("ip", Val.str "10.0.0.5")], 60, 60)] (by decide)⟩

/-- `node_data.get("l3", {}).get("ip", ...)` — the l3-ip accessor used by
`NetworkNode.update_text` (network_canvas.py line 63), without the
"No IP" default. -/
def nodeL3ip (d : Dict) : Option Val :=
  match lookup d "l3" with
  | some (Val.dict g) => lookup g "ip"
  | _ => none

/-- C8 (counterexample): discovering `[{ip:"10.0.0.5"}, {ip:"10.0.0.5"}]`
against an empty canvas creates two nodes, not one, and the first node's
`l3.ip` is the `add_node` default `"192.168.1.1"`, not `"10.0.0.5"` — the
record's address is stored only under the top-level `"ip"` key, and
`setdefault("l3", ...)` installs the default l3 group because the built
`node_data` has no `"l3"` key. -/
theorem discovered_duplicate_ip_cex :
    ¬ (((Canvas.init "l3").add_discovered_nodes
        [([("ip", Val.str "10.0.0.5")], 60, 60),
         ([("ip", Val.str "10.0.0.5")], 70, 70)]).nodes.length = 1) ∧
    ¬ (nodeL3ip ((((Canvas.init "l3").add_discovered_nodes
          [([("ip", Val.str "10.0.0.5")], 60, 60),
           ([("ip", Val.str "10.0.0.5")], 70, 70)]).nodes.getD 0
            (0, [])).2) = some (Val.str "10.0.0.5")) := by
  constructor
  · decide
  · intro h
    have h1 : some (Val.str "192.168.1.1") = some (Val.str "10.0.0.5") := h
    injection h1 with h2
    injection h2 with h3
    exact absurd h3 (by decide)

/-- C8 (amended): discovering `[{ip:"10.0.0.5"}, {ip:"10.0.0.5"}]` against
an empty canvas creates exactly two nodes (ids 1 and 2); each node stores
the record's address under its top-level `"ip"` key, while its `l3`
attribute group is the `add_node` default, so `l3.ip` is `"192.168.1.1"`
resp. `"192.168.1.2"`. -/
theorem discovered_nodes_ip_mapping :
    (((Canvas.init "l3").add_discovered_nodes
        [([("ip", Val.str "10.0.0.5")], 60, 60),
         ([("ip", Val.str "10.0.0.5")], 70, 70)]).nodes.length = 2) ∧
    (((Canvas.init "l3").add_discovered_nodes
        [([("ip", Val.str "10.0.0.5")], 60, 60),
         ([("ip", Val.str "10.0.0.5")], 70, 70)]).nodes.map Prod.fst
      = [1, 2]) ∧
    (lookup ((((Canvas.init "l3").add_discovered_nodes
        [([("ip", Val.str "10.0.0.5")], 60, 60),
         ([("ip", Val.str "10.0.0.5")], 70, 70)]).nodes.getD 0 (0, [])).2)
        "ip" = some (Val.str "10.0.0.5")) ∧
    (lookup ((((Canvas.init "l3").add_discovered_nodes
        [([("ip", Val.str "10.0.0.5")], 60, 60),
         ([("ip", Val.str "10.0.0.5")], 70, 70)]).nodes.getD 1 (0, [])).2)
        "ip" = some (Val.str "10.0.0.5")) ∧
    (nodeL3ip ((((Canvas.init "l3").add_discovered_nodes
        [([("ip", Val.str "10.0.0.5")], 60, 60),
         ([("ip", Val.str "10.0.0.5")], 70, 70)]).nodes.getD 0 (0, [])).2)
      = some (Val.str "192.168.1.1")) ∧
    (nodeL3ip ((((Canvas.init "l3").add_discovered_nodes
        [([("ip", Val.str "10.0.0.5")], 60, 60),
         ([("ip", Val.str "10.0.0.5")], 70, 70)]).nodes.getD 1 (0, [])).2)
      = some (Val.str "192.168.1.2")) :=
  ⟨by decide, rfl, rfl, rfl, rfl, rfl⟩

/-- After `setNodeKey l i d`, looking the key up finds exactly `d`
(whether the key was replaced in place or appended). -/
theorem setNodeKey_findNode (l : List (Int × Dict)) (i : Int) (d : Dict) :
    ((setNodeKey l i d).find? fun p => p.1 == i).map Prod.snd = some d := by
  induction l with
  | nil => simp [setNodeKey]
  | cons kv rest ih =>
      obtain ⟨k, e⟩ := kv
      by_cases hk : k = i
      · subst hk
        simp [setNodeKey]
      · simp [setNodeKey, hk, List.find?_cons, ih]

/-- C7 (counterexample): `update_node` with an id absent from the canvas
is a silent no-op — the canvas is returned unchanged and no error of any
kind is raised, contrary to the claimed `NotFoundError`. -/
theorem update_node_absent_silent_cex :
    (Canvas.init "l1").update_node [("id", Val.int 5)] = Canvas.init "l1" :=
  rfl

/-- C7 (amended): `update_node` silently ignores an id absent from the
canvas (see the counterexample); for a present id it stores
`old.update(node_data)`: every key supplied in `node_data` replaces the
old top-level value wholesale — in particular a supplied `l3` group
replaces the entire stored `l3` group — and keys not supplied keep their
old value. -/
theorem update_node_merge_wholesale (c : Canvas) (node_data : Dict)
    (nid : Int) (old : Dict) (g : Val) (k : String)
    (hid : lookup node_data "id" = some (Val.int nid))
    (hfind : c.findNode nid = some old)
    (hnd : (node_data.map Prod.fst).Nodup)
    (hl3 : lookup node_data "l3" = some g) :
    (c.update_node node_data).findNode nid
        = some (dictUpdate old node_data) ∧
    lookup (dictUpdate old node_data) "l3" = some g ∧
    lookup (dictUpdate old node_data) k
      = (match lookup node_data k with
         | some v => some v
         | none => lookup old k) := by
  refine ⟨?_, ?_, ?_⟩
  · unfold Canvas.update_node
    rw [hid]
    show (match c.findNode nid with
          | some old =>
              { c with nodes := setNodeKey c.nodes nid (dictUpdate old node_data) }
          | none => c).findNode nid = _
    rw [hfind]
    exact setNodeKey_findNode c.nodes nid _
  · rw [lookup_dictUpdate _ _ _ hnd, hl3]
  · exact lookup_dictUpdate _ _ _ hnd

/-- C7 (witness): the merge theorem applied to a one-node canvas whose
node carries an `l3` group, updated with a different `l3` group. -/
theorem update_node_merge_wholesale_witness :
    (lookup [("id", Val.int 1), ("l3", Val.dict [("ip", Val.str "10.0.0.9")])]
        "id" = some (Val.int 1) ∧
     (Canvas.mk "l1" [(1, [("id", Val.int 1), ("name", Val.str "n1"),
        ("l3", Val.dict [("ip", Val.str "1.1.1.1")])])] [] 2).findNode 1
       = some [("id", Val.int 1), ("name", Val.str "n1"),
               ("l3", Val.dict [("ip", Val.str "1.1.1.1")])] ∧
     (([("id", Val.int 1),
        ("l3", Val.dict [("ip", Val.str "10.0.0.9")])] : Dict).map
        Prod.fst).Nodup ∧
     lookup [("id", Val.int 1), ("l3", Val.dict [("ip", Val.str "10.0.0.9")])]
       "l3" = some (Val.dict [("ip", Val.str "10.0.0.9")])) ∧
    (((Canvas.mk "l1" [(1, [("id", Val.int 1), ("name", Val.str "n1"),
          ("l3", Val.dict [("ip", Val.str "1.1.1.1")])])] [] 2).update_node
        [("id", Val.int 1),
         ("l3", Val.dict [("ip", Val.str "10.0.0.9")])]).findNode 1
      = some (dictUpdate
          [("id", Val.int 1), ("name", Val.str "n1"),
           ("l3", Val.dict [("ip", Val.str "1.1.1.1")])]
          [("id", Val.int 1),
           ("l3", Val.dict [("ip", Val.str "10.0.0.9")])]) ∧
     lookup (dictUpdate
          [("id", Val.int 1), ("name", Val.str "n1"),
           ("l3", Val.dict [("ip", Val.str "1.1.1.1")])]
          [("id", Val.int 1),
           ("l3", Val.dict [("ip", Val.str "10.0.0.9")])]) "l3"
       = some (Val.dict [("ip", Val.str "10.0.0.9")]) ∧
     lookup (dictUpdate
          [("id", Val.int 1), ("name", Val.str "n1"),
           ("l3", Val.dict [("ip", Val.str "1.1.1.1")])]
          [("id", Val.int 1),
           ("l3", Val.dict [("ip", Val.str "10.0.0.9")])]) "name"
       = (match lookup [("id", Val.int 1),
            ("l3", Val.dict [("ip", Val.str "10.0.0.9")])] "name" with
          | some v => some v
          | none => lookup [("id", Val.int 1), ("name", Val.str "n1"),
              ("l3", Val.dict [("ip", Val.str "1.1.1.1")])] "name")) :=
  ⟨⟨rfl, rfl, by decide, rfl⟩,
   update_node_merge_wholesale
     (Canvas.mk "l1" [(1, [("id", Val.int 1), ("name", Val.str "n1"),
        ("l3", Val.dict [("ip", Val.str "1.1.1.1")])])] [] 2)
     [("id", Val.int 1), ("l3", Val.dict [("ip", Val.str "10.0.0.9")])]
     1
     [("id", Val.int 1), ("name", Val.str "n1"),
      ("l3", Val.dict [("ip", Val.str "1.1.1.1")])]
     (Val.dict [("ip", Val.str "10.0.0.9")])
     "name" rfl rfl (by decide) rfl⟩

/-- `getD` commutes with `map` at an in-range index. -/
theorem getD_map_of_lt {α β : Type} (l : List α) (f : α → β) (i : ℕ)
    (da : α) (db : β) (h : i < l.length) :
    (l.map f).getD i db = f (l.getD i da) := by
  induction l generalizing i with
  | nil => simp at h
  | cons a l ih =>
      cases i with
      | zero => rfl
      | succ j => exact ih j (Nat.lt_of_succ_lt_succ h)

/-- C9: `auto_layout` changes only node positions: the connection set, the
id counter, the node count and every node's id are unchanged, every
non-position attribute (any key other than `"x"`/`"y"`) keeps its value,
and the stored position of each node is the normalised coordinate mapped
by `x = normX * 300 + 400`, `y = normY * 300 + 300`. -/
theorem auto_layout_frame (c : Canvas) (pos : Int → ℚ × ℚ) (i : ℕ)
    (k : String) (h : i < c.nodes.length) (hk1 : k ≠ "x") (hk2 : k ≠ "y") :
    (c.auto_layout pos).connections = c.connections ∧
    (c.auto_layout pos).next_node_id = c.next_node_id ∧
    (c.auto_layout pos).nodes.length = c.nodes.length ∧
    ((c.auto_layout pos).nodes.getD i (0, [])).1
      = (c.nodes.getD i (0, [])).1 ∧
    lookup ((c.auto_layout pos).nodes.getD i (0, [])).2 k
      = lookup (c.nodes.getD i (0, [])).2 k ∧
    lookup ((c.auto_layout pos).nodes.getD i (0, [])).2 "x"
      = some (Val.float ((pos (c.nodes.getD i (0, [])).1).1 * 300 + 400)) ∧
    lookup ((c.auto_layout pos).nodes.getD i (0, [])).2 "y"
      = some (Val.float ((pos (c.nodes.getD i (0, [])).1).2 * 300 + 300)) := by
  have hne : c.nodes.isEmpty = false := by
    cases hcn : c.nodes with
    | nil => rw [hcn] at h; simp at h
    | cons a l => rfl
  have hal : c.auto_layout pos = { c with nodes := c.nodes.map (layoutNode pos) } := by
    unfold Canvas.auto_layout
    rw [hne]
    simp
  have hget : (c.nodes.map (layoutNode pos)).getD i (0, [])
      = layoutNode pos (c.nodes.getD i (0, [])) :=
    getD_map_of_lt c.nodes (layoutNode pos) i (0, []) (0, []) h
  refine ⟨by rw [hal], by rw [hal], by rw [hal]; simp, ?_, ?_, ?_, ?_⟩
  · rw [hal]
    show ((c.nodes.map (layoutNode pos)).getD i (0, [])).1 = _
    rw [hget]
    rfl
  · rw [hal]
    show lookup ((c.nodes.map (layoutNode pos)).getD i (0, [])).2 k = _
    rw [hget]
    show lookup (setKey (setKey _ "x" _) "y" _) k = _
    rw [lookup_setKey_ne _ _ _ _ hk2, lookup_setKey_ne _ _ _ _ hk1]
  · rw [hal]
    show lookup ((c.nodes.map (layoutNode pos)).getD i (0, [])).2 "x" = _
    rw [hget]
    show lookup (setKey (setKey _ "x" _) "y" _) "x" = _
    rw [lookup_setKey_ne _ _ _ _ (by decide), lookup_setKey_self]
  · rw [hal]
    show lookup ((c.nodes.map (layoutNode pos)).getD i (0, [])).2 "y" = _
    rw [hget]
    show lookup (setKey (setKey _ "x" _) "y" _) "y" = _
    rw [lookup_setKey_self]

/-- C9 (witness): the frame theorem applied to a one-node canvas with the
constant normalised position (1, 1), which is mapped to (700, 600). -/
theorem auto_layout_frame_witness :
    ((0 : ℕ) < (Canvas.mk "l1"
        [(1, [("name", Val.str "n"), ("x", Val.float 10), ("y", Val.float 20)])]
        [] 2).nodes.length ∧
     ("name" : String) ≠ "x" ∧ ("name" : String) ≠ "y") ∧
    (((Canvas.mk "l1"
        [(1, [("name", Val.str "n"), ("x", Val.float 10), ("y", Val.float 20)])]
        [] 2).auto_layout (fun _ => (1, 1))).connections
        = (Canvas.mk "l1"
            [(1, [("name", Val.str "n"), ("x", Val.float 10),
                  ("y", Val.float 20)])] [] 2).connections ∧
     ((Canvas.mk "l1"
        [(1, [("name", Val.str "n"), ("x", Val.float 10), ("y", Val.float 20)])]
        [] 2).auto_layout (fun _ => (1, 1))).next_node_id
        = (Canvas.mk "l1"
            [(1, [("name", Val.str "n"), ("x", Val.float 10),
                  ("y", Val.float 20)])] [] 2).next_node_id ∧
     ((Canvas.mk "l1"
        [(1, [("name", Val.str "n"), ("x", Val.float 10), ("y", Val.float 20)])]
        [] 2).auto_layout (fun _ => (1, 1))).nodes.length
        = (Canvas.mk "l1"
            [(1, [("name", Val.str "n"), ("x", Val.float 10),
                  ("y", Val.float 20)])] [] 2).nodes.length ∧
     (((Canvas.mk "l1"
        [(1, [("name", Val.str "n"), ("x", Val.float 10), ("y", Val.float 20)])]
        [] 2).auto_layout (fun _ => (1, 1))).nodes.getD 0 (0, [])).1
        = ((Canvas.mk "l1"
            [(1, [("name", Val.str "n"), ("x", Val.float 10),
                  ("y", Val.float 20)])] [] 2).nodes.getD 0 (0, [])).1 ∧
     lookup (((Canvas.mk "l1"
        [(1, [("name", Val.str "n"), ("x", Val.float 10), ("y", Val.float 20)])]
        [] 2).auto_layout (fun _ => (1, 1))).nodes.getD 0 (0, [])).2 "name"
        = lookup (((Canvas.mk "l1"
            [(1, [("name", Val.str "n"), ("x", Val.float 10),
                  ("y", Val.float 20)])] [] 2).nodes.getD 0 (0, [])).2) "name" ∧
     lookup (((Canvas.mk "l1"
        [(1, [("name", Val.str "n"), ("x", Val.float 10), ("y", Val.float 20)])]
        [] 2).auto_layout (fun _ => (1, 1))).nodes.getD 0 (0, [])).2 "x"
        = some (Val.float (1 * 300 + 400)) ∧
     lookup (((Canvas.mk "l1"
        [(1, [("name", Val.str "n"), ("x", Val.float 10), ("y", Val.float 20)])]
        [] 2).auto_layout (fun _ => (1, 1))).nodes.getD 0 (0, [])).2 "y"
        = some (Val.float (1 * 300 + 300))) :=
  ⟨⟨by decide, by decide, by decide⟩, by
   have h := auto_layout_frame
     (Canvas.mk "l1"
       [(1, [("name", Val.str "n"), ("x", Val.float 10), ("y", Val.float 20)])]
       [] 2)
     (fun _ => (1, 1)) 0 "name" (by decide) (by decide) (by decide)
   exact h⟩

/-! Lemmas for the save/load round trip and the backup rotation. -/

theorem setKey_setKey_same (d : Dict) (k : String) (v w : Val) :
    setKey (setKey d k v) k w = setKey d k w := by
  induction d with
  | nil => simp [setKey]
  | cons kv rest ih =>
      obtain ⟨k0, v0⟩ := kv
      by_cases hk : k0 = k <;> simp [setKey, hk, ih]

theorem backup_path_ne (p : String) : p ++ ".backup" ≠ p := by
  intro h
  have hlen := congrArg String.length h
  rw [String.length_append] at hlen
  have hb : (".backup" : String).length = 7 := rfl
  rw [hb] at hlen
  omega

theorem stamp_loaded_of_dict (d : Dict) (now : String) (m : Dict)
    (hm : lookup d "metadata" = some (Val.dict m)) :
    stamp_loaded d now
      = .ok (setKey d "metadata" (Val.dict (setKey m "loaded" (Val.str now)))) := by
  unfold stamp_loaded
  rw [hm]

theorem load_project_of_dict (fs : FS) (path now : String) (d : Dict)
    (hfsd : fs path = some (Val.dict d)) :
    load_project fs path now = stamp_loaded (validate_project_data d) now := by
  unfold load_project
  rw [hfsd]

theorem fsSet_self (fs : FS) (p : String) (v : Val) : fsSet fs p v p = some v := by
  simp [fsSet]

theorem fsSet_ne (fs : FS) (p : String) (v : Val) (q : String) (h : q ≠ p) :
    fsSet fs p v q = fs q := by
  simp [fsSet, h]

/-- A successful `save_write` stores the document at the path and returns
`True`. -/
theorem save_write_ok (fs : FS) (data : Dict) (path : String) :
    (save_write fs data path true).1 path = some (Val.dict data) ∧
    (save_write fs data path true).2.1 = data ∧
    (save_write fs data path true).2.2 = true := by
  unfold save_write
  cases hc : fs path <;> simp [fsSet]

/-- C5 (counterexample): the round trip is not the identity modulo the
`modified` field — `load_project` also stamps a `loaded` timestamp into
the metadata, a field the original document does not carry. -/
theorem roundtrip_adds_loaded_field_cex :
    load_project (save_project (fun _ => none)
        [("metadata", Val.dict [("name", Val.str "n")]),
         ("topologies", Val.dict [])] "p" "t1" true).1 "p" "t2"
      = Except.ok [("metadata", Val.dict
          [("name", Val.str "n"), ("modified", Val.str "t1"),
           ("loaded", Val.str "t2")]), ("topologies", Val.dict [])] ∧
    lookup [("name", Val.str "n")] "loaded" = none ∧
    ¬ (load_project (save_project (fun _ => none)
        [("metadata", Val.dict [("name", Val.str "n")]),
         ("topologies", Val.dict [])] "p" "t1" true).1 "p" "t2"
      = Except.ok [("metadata", Val.dict
          [("name", Val.str "n"), ("modified", Val.str "t1")]),
         ("topologies", Val.dict [])]) := by
  refine ⟨rfl, rfl, ?_⟩
  intro h
  have hR : load_project (save_project (fun _ => none)
      [("metadata", Val.dict [("name", Val.str "n")]),
       ("topologies", Val.dict [])] "p" "t1" true).1 "p" "t2"
      = Except.ok [("metadata", Val.dict
          [("name", Val.str "n"), ("modified", Val.str "t1"),
           ("loaded", Val.str "t2")]), ("topologies", Val.dict [])] := rfl
  rw [hR] at h
  injection h with h1
  simp at h1

/-- C5 (amended): for a well-formed document (its `metadata` is a dict and
a `topologies` section is present), `load(save(D))` returns `D` with its
`metadata` replaced by the old metadata whose `modified` field is
rewritten by save and with a `loaded` field added by load; every
top-level field other than `metadata` and every metadata field other than
`modified` and `loaded` is unchanged. -/
theorem save_load_roundtrip (fs : FS) (D : Dict) (path now now2 : String)
    (md : Dict) (tp : Val) (k k2 : String)
    (hmd : lookup D "metadata" = some (Val.dict md))
    (htp : lookup D "topologies" = some tp)
    (hk : k ≠ "metadata")
    (hk2a : k2 ≠ "modified") (hk2b : k2 ≠ "loaded") :
    load_project (save_project fs D path now true).1 path now2
      = Except.ok (setKey D "metadata" (Val.dict
          (setKey (setKey md "modified" (Val.str now)) "loaded"
            (Val.str now2)))) ∧
    lookup (setKey D "metadata" (Val.dict
        (setKey (setKey md "modified" (Val.str now)) "loaded"
          (Val.str now2)))) k = lookup D k ∧
    lookup (setKey (setKey md "modified" (Val.str now)) "loaded"
        (Val.str now2)) "modified" = some (Val.str now) ∧
    lookup (setKey (setKey md "modified" (Val.str now)) "loaded"
        (Val.str now2)) "loaded" = some (Val.str now2) ∧
    lookup (setKey (setKey md "modified" (Val.str now)) "loaded"
        (Val.str now2)) k2 = lookup md k2 := by
  have hsave : save_project fs D path now true
      = save_write fs (setKey D "metadata"
          (Val.dict (setKey md "modified" (Val.str now)))) path true := by
    unfold save_project
    rw [hmd]
  have hfs := save_write_ok fs (setKey D "metadata"
      (Val.dict (setKey md "modified" (Val.str now)))) path
  refine ⟨?_, ?_, ?_, ?_, ?_⟩
  · rw [hsave]
    rw [load_project_of_dict _ _ _ _ hfs.1]
    have hval : validate_project_data (setKey D "metadata"
        (Val.dict (setKey md "modified" (Val.str now))))
        = setKey D "metadata" (Val.dict (setKey md "modified" (Val.str now))) := by
      unfold validate_project_data setdefault
      rw [lookup_setKey_ne _ _ _ _ (by decide), htp]
    rw [hval, stamp_loaded_of_dict _ _ _ (lookup_setKey_self _ _ _),
      setKey_setKey_same]
  · rw [lookup_setKey_ne _ _ _ _ hk]
  · rw [lookup_setKey_ne _ _ _ _ (by decide), lookup_setKey_self]
  · rw [lookup_setKey_self]
  · rw [lookup_setKey_ne _ _ _ _ hk2b, lookup_setKey_ne _ _ _ _ hk2a]

/-- C5 (witness): the round-trip theorem applied to a small well-formed
document. -/
theorem save_load_roundtrip_witness :
    (lookup [("metadata", Val.dict [("name", Val.str "n")]),
        ("topologies", Val.dict []), ("nodes", Val.arr [])] "metadata"
        = some (Val.dict [("name", Val.str "n")]) ∧
     lookup [("metadata", Val.dict [("name", Val.str "n")]),
        ("topologies", Val.dict []), ("nodes", Val.arr [])] "topologies"
        = some (Val.dict []) ∧
     ("nodes" : String) ≠ "metadata" ∧
     ("name" : String) ≠ "modified" ∧ ("name" : String) ≠ "loaded") ∧
    (load_project (save_project (fun _ => none)
        [("metadata", Val.dict [("name", Val.str "n")]),
         ("topologies", Val.dict []), ("nodes", Val.arr [])]
        "p" "t1" true).1 "p" "t2"
      = Except.ok (setKey
          [("metadata", Val.dict [("name", Val.str "n")]),
           ("topologies", Val.dict []), ("nodes", Val.arr [])]
          "metadata" (Val.dict
          (setKey (setKey [("name", Val.str "n")] "modified" (Val.str "t1"))
            "loaded" (Val.str "t2")))) ∧
     lookup (setKey
          [("metadata", Val.dict [("name", Val.str "n")]),
           ("topologies", Val.dict []), ("nodes", Val.arr [])]
          "metadata" (Val.dict
          (setKey (setKey [("name", Val.str "n")] "modified" (Val.str "t1"))
            "loaded" (Val.str "t2")))) "nodes"
        = lookup [("metadata", Val.dict [("name", Val.str "n")]),
            ("topologies", Val.dict []), ("nodes", Val.arr [])] "nodes" ∧
     lookup (setKey (setKey [("name", Val.str "n")] "modified" (Val.str "t1"))
          "loaded" (Val.str "t2")) "modified" = some (Val.str "t1") ∧
     lookup (setKey (setKey [("name", Val.str "n")] "modified" (Val.str "t1"))
          "loaded" (Val.str "t2")) "loaded" = some (Val.str "t2") ∧
     lookup (setKey (setKey [("name", Val.str "n")] "modified" (Val.str "t1"))
          "loaded" (Val.str "t2")) "name"
        = lookup [("name", Val.str "n")] "name") :=
  ⟨⟨rfl, rfl, by decide, by decide, by decide⟩,
   save_load_roundtrip (fun _ => none)
     [("metadata", Val.dict [("name", Val.str "n")]),
      ("topologies", Val.dict []), ("nodes", Val.arr [])]
     "p" "t1" "t2" [("name", Val.str "n")] (Val.dict []) "nodes" "name"
     rfl rfl (by decide) (by decide) (by decide)⟩

/-- C6 (counterexample): with an existing file `"old"` at `"p"`, a save
whose write fails leaves `"p"` holding the truncated new file, not the
original — the original was already moved to `"p.backup"` before the
write was attempted, so it no longer exists at the original path. -/
theorem save_failure_moves_original_cex :
    ¬ ((save_project (fun q => if q = "p" then some (Val.str "old") else none)
        [] "p" "t" false).1 "p" = some (Val.str "old")) ∧
    (save_project (fun q => if q = "p" then some (Val.str "old") else none)
        [] "p" "t" false).1 "p.backup" = some (Val.str "old") ∧
    (save_project (fun q => if q = "p" then some (Val.str "old") else none)
        [] "p" "t" false).2.2 = false := by
  refine ⟨?_, rfl, rfl⟩
  intro h
  have hR : (save_project (fun q => if q = "p" then some (Val.str "old") else none)
      [] "p" "t" false).1 "p" = some (Val.str "") := rfl
  rw [hR] at h
  injection h with h1
  injection h1 with h2
  exact absurd h2 (by decide)

/-- C6 (amended): when a save over an existing file fails at the write,
the original content has already been moved to `path + ".backup"` (after
deleting any prior backup): the original survives at the backup path and
`save_project` returns `False`, but the path itself holds the truncated
new file, not the original.  (The model writes an empty file for a failed
dump: `open(path, "w")` truncates before `json.dump` runs.) -/
theorem save_failure_backup_preserved (fs : FS) (data : Dict)
    (path now : String) (md : Dict) (v : Val)
    (hmd : lookup data "metadata" = some (Val.dict md))
    (hf : fs path = some v) :
    (save_project fs data path now false).1 (path ++ ".backup") = some v ∧
    (save_project fs data path now false).2.2 = false ∧
    (save_project fs data path now false).1 path = some (Val.str "") := by
  have hsave : save_project fs data path now false
      = save_write fs (setKey data "metadata"
          (Val.dict (setKey md "modified" (Val.str now)))) path false := by
    unfold save_project
    rw [hmd]
  rw [hsave]
  unfold save_write
  rw [hf]
  refine ⟨?_, rfl, ?_⟩
  · show fsSet _ path (Val.str "") (path ++ ".backup") = some v
    rw [fsSet_ne _ _ _ _ (backup_path_ne path), fsSet_self]
  · show fsSet _ path (Val.str "") path = some (Val.str "")
    exact fsSet_self _ _ _

/-- C6 (witness): the failure theorem applied to a one-file filesystem. -/
theorem save_failure_backup_preserved_witness :
    (lookup [("metadata", Val.dict [])] "metadata" = some (Val.dict []) ∧
     (fun q => if q = "p" then some (Val.str "old") else none) "p"
        = some (Val.str "old")) ∧
    ((save_project (fun q => if q = "p" then some (Val.str "old") else none)
        [("metadata", Val.dict [])] "p" "t" false).1 ("p" ++ ".backup")
        = some (Val.str "old") ∧
     (save_project (fun q => if q = "p" then some (Val.str "old") else none)
        [("metadata", Val.dict [])] "p" "t" false).2.2 = false ∧
     (save_project (fun q => if q = "p" then some (Val.str "old") else none)
        [("metadata", Val.dict [])] "p" "t" false).1 "p"
        = some (Val.str "")) :=
  ⟨⟨rfl, rfl⟩,
   save_failure_backup_preserved
     (fun q => if q = "p" then some (Val.str "old") else none)
     [("metadata", Val.dict [])] "p" "t" [] (Val.str "old") rfl rfl⟩

/-! Lemmas for `load_data`: the stored id, preservation of nodes by the
connection loop, and the renumbering of the node loop. -/

theorem addNodeData_id (node_data : Option Dict) (i : Int) (rx ry : ℚ) :
    lookup (addNodeData node_data i rx ry) "id" = some (Val.int i) := by
  simp only [addNodeData]
  rw [lookup_setdefault_ne _ _ _ _ (by decide),
    lookup_setdefault_ne _ _ _ _ (by decide),
    lookup_setdefault_ne _ _ _ _ (by decide),
    lookup_setdefault_ne _ _ _ _ (by decide),
    lookup_setdefault_ne _ _ _ _ (by decide),
    lookup_setdefault_ne _ _ _ _ (by decide),
    lookup_setdefault_ne _ _ _ _ (by decide),
    lookup_setdefault_ne _ _ _ _ (by decide)]
  cases node_data with
  | none => rfl
  | some d => exact lookup_setKey_self d "id" (Val.int i)

theorem add_connection_nodes (c : Canvas) (s t : Int) (cd : Option Dict) :
    (c.add_connection s t cd).1.nodes = c.nodes ∧
    (c.add_connection s t cd).1.next_node_id = c.next_node_id := by
  simp only [Canvas.add_connection]
  split_ifs <;> exact ⟨rfl, rfl⟩

theorem loadConnStep_nodes (acc : Canvas) (v : Val) :
    (loadConnStep acc v).nodes = acc.nodes ∧
    (loadConnStep acc v).next_node_id = acc.next_node_id := by
  unfold loadConnStep
  split
  · split
    · split
      · exact add_connection_nodes _ _ _ _
      · exact ⟨rfl, rfl⟩
    · exact ⟨rfl, rfl⟩
  · exact ⟨rfl, rfl⟩

theorem foldl_loadConnStep_nodes (l : List Val) (c0 : Canvas) :
    (l.foldl loadConnStep c0).nodes = c0.nodes := by
  induction l generalizing c0 with
  | nil => rfl
  | cons v rest ih =>
      rw [List.foldl_cons, ih, (loadConnStep_nodes c0 v).1]

theorem mem_enumFrom_snd {α : Type} (l : List α) (n : ℕ) (p : ℕ × α)
    (h : p ∈ l.enumFrom n) : p.2 ∈ l := by
  induction l generalizing n with
  | nil => simp [List.enumFrom] at h
  | cons a l ih =>
      rcases List.mem_cons.mp h with h | h
      · rw [h]
        exact List.mem_cons_self _ _
      · exact List.mem_cons_of_mem _ (ih _ h)

theorem foldl_loadNodeStep_ids (rnd : ℕ → ℚ × ℚ) (pl : List (ℕ × Val))
    (c0 : Canvas)
    (hall : ∀ p ∈ pl, ∃ nd, p.2 = Val.dict nd) (hkb : c0.keysBelow) :
    (pl.foldl (loadNodeStep rnd) c0).nodes.map Prod.fst
        = c0.nodes.map Prod.fst
          ++ (List.range pl.length).map
              (fun j : ℕ => c0.next_node_id + (j : Int)) ∧
    (pl.foldl (loadNodeStep rnd) c0).keysBelow := by
  induction pl generalizing c0 with
  | nil => exact ⟨by simp, hkb⟩
  | cons p rest ih =>
      obtain ⟨nd, hp⟩ := hall p (List.mem_cons_self _ _)
      have hstep : loadNodeStep rnd c0 p
          = (c0.add_node (some nd) (rnd p.1).1 (rnd p.1).2).1 := by
        unfold loadNodeStep
        rw [hp]
      have hrest := ih ((c0.add_node (some nd) (rnd p.1).1 (rnd p.1).2).1)
        (fun q hq => hall q (List.mem_cons_of_mem _ hq))
        (add_node_keysBelow c0 _ _ _ hkb)
      rw [List.foldl_cons, hstep]
      refine ⟨?_, hrest.2⟩
      rw [hrest.1, add_node_keys c0 _ _ _ (keysBelow_not_mem c0 hkb),
        add_node_next, List.append_assoc]
      congr 1
      rw [List.singleton_append, List.length_cons, List.range_succ_eq_map,
        List.map_cons, List.map_map]
      refine congrArg₂ _ (by push_cast; ring) ?_
      apply List.map_congr_left
      intro j _
      show c0.next_node_id + 1 + (j : Int) = c0.next_node_id + ((j + 1 : ℕ) : Int)
      push_cast
      ring

/-- C10: (1) `add_node` returns the canvas counter as the node id and
stores it under the node's `"id"` key, overwriting any id supplied in the
input data; (2) consequently `load_data` re-numbers loaded nodes 1, 2, …
in list order regardless of the ids stored in the document; (3) a
connection either of whose endpoint ids — source or target — does not
match any (re-numbered) node id is silently dropped: `add_connection` is
a no-op whenever the source id or the target id is unknown. -/
theorem load_renumbers_and_drops :
    (∀ (c : Canvas) (d : Dict) (rx ry : ℚ),
      (c.add_node (some d) rx ry).2 = c.next_node_id ∧
      (c.add_node (some d) rx ry).1.findNode c.next_node_id
        = some (addNodeData (some d) c.next_node_id rx ry) ∧
      lookup (addNodeData (some d) c.next_node_id rx ry) "id"
        = some (Val.int c.next_node_id)) ∧
    (∀ (c : Canvas) (data : Dict) (rnd : ℕ → ℚ × ℚ),
      (∀ v ∈ getArr (lookup data "nodes"), ∃ nd, v = Val.dict nd) →
      (c.load_data data rnd).nodes.map Prod.fst
        = (List.range (getArr (lookup data "nodes")).length).map
            (fun j : ℕ => (1 : Int) + (j : Int))) ∧
    (∀ (c : Canvas) (s t : Int) (cd : Option Dict),
      c.containsNode s = false ∨ c.containsNode t = false →
      c.add_connection s t cd = (c, none)) := by
  refine ⟨?_, ?_, ?_⟩
  · intro c d rx ry
    refine ⟨rfl, ?_, addNodeData_id (some d) c.next_node_id rx ry⟩
    show ((setNodeKey c.nodes c.next_node_id
        (addNodeData (some d) c.next_node_id rx ry)).find?
        fun p => p.1 == c.next_node_id).map Prod.snd = _
    exact setNodeKey_findNode _ _ _
  · intro c data rnd hall
    unfold Canvas.load_data
    rw [foldl_loadConnStep_nodes]
    have hkb0 : (Canvas.clear c).keysBelow :=
      fun k hk => absurd hk (by simp [Canvas.clear])
    have h := foldl_loadNodeStep_ids rnd ((getArr (lookup data "nodes")).enum)
      (Canvas.clear c)
      (fun p hp => hall p.2 (mem_enumFrom_snd _ 0 p hp)) hkb0
    rw [h.1]
    simp [Canvas.clear, List.enum_length]
  · intro c s t cd h
    unfold Canvas.add_connection
    rcases h with h | h <;> simp [h]

/-- C10 (witness): loading a document whose two node entries carry ids 7
and 9 yields nodes re-numbered 1, 2; `add_node` on input data with id 99
returns counter value 1 and stores id 1; and on a canvas holding node 1,
the connection `{source: 1, target: 3}` — valid source, stale target, the
post-deletion case — is silently dropped. -/
theorem load_renumbers_and_drops_witness :
    ((Canvas.init "l1").add_node (some [("id", Val.int 99)]) 0 0).2
        = (Canvas.init "l1").next_node_id ∧
    lookup (addNodeData (some [("id", Val.int 99)])
        (Canvas.init "l1").next_node_id 0 0) "id"
        = some (Val.int (Canvas.init "l1").next_node_id) ∧
    (∀ v ∈ getArr (lookup
        [("nodes", Val.arr [Val.dict [("id", Val.int 7)],
                            Val.dict [("id", Val.int 9)]]),
         ("connections", Val.arr [Val.dict [("source", Val.int 7),
                                            ("target", Val.int 9)]])]
        "nodes"), ∃ nd, v = Val.dict nd) ∧
    ((Canvas.init "l1").load_data
        [("nodes", Val.arr [Val.dict [("id", Val.int 7)],
                            Val.dict [("id", Val.int 9)]]),
         ("connections", Val.arr [Val.dict [("source", Val.int 7),
                                            ("target", Val.int 9)]])]
        (fun _ => (0, 0))).nodes.map Prod.fst
      = (List.range (getArr (lookup
          [("nodes", Val.arr [Val.dict [("id", Val.int 7)],
                              Val.dict [("id", Val.int 9)]]),
           ("connections", Val.arr [Val.dict [("source", Val.int 7),
                                              ("target", Val.int 9)]])]
          "nodes")).length).map (fun j : ℕ => (1 : Int) + (j : Int)) ∧
    (Canvas.mk "l1" [(1, [])] [] 2).containsNode 1 = true ∧
    (Canvas.mk "l1" [(1, [])] [] 2).containsNode 3 = false ∧
    (Canvas.mk "l1" [(1, [])] [] 2).add_connection 1 3
        (some [("source", Val.int 1), ("target", Val.int 3)])
      = (Canvas.mk "l1" [(1, [])] [] 2, none) := by
  have hall : ∀ v ∈ getArr (lookup
      [("nodes", Val.arr [Val.dict [("id", Val.int 7)],
                          Val.dict [("id", Val.int 9)]]),
       ("connections", Val.arr [Val.dict [("source", Val.int 7),
                                          ("target", Val.int 9)]])]
      "nodes"), ∃ nd, v = Val.dict nd := by
    intro v hv
    rw [show getArr (lookup
        [("nodes", Val.arr [Val.dict [("id", Val.int 7)],
                            Val.dict [("id", Val.int 9)]]),
         ("connections", Val.arr [Val.dict [("source", Val.int 7),
                                            ("target", Val.int 9)]])]
        "nodes") = [Val.dict [("id", Val.int 7)],
                    Val.dict [("id", Val.int 9)]] from rfl] at hv
    simp only [List.mem_cons, List.not_mem_nil, or_false] at hv
    rcases hv with h | h
    · exact ⟨_, h⟩
    · exact ⟨_, h⟩
  refine ⟨(load_renumbers_and_drops.1 (Canvas.init "l1")
      [("id", Val.int 99)] 0 0).1,
    (load_renumbers_and_drops.1 (Canvas.init "l1")
      [("id", Val.int 99)] 0 0).2.2,
    hall,
    load_renumbers_and_drops.2.1 (Canvas.init "l1") _ (fun _ => (0, 0)) hall,
    by decide,
    by decide,
    load_renumbers_and_drops.2.2 (Canvas.mk "l1" [(1, [])] [] 2) 1 3
      (some [("source", Val.int 1), ("target", Val.int 3)])
      (Or.inr (by decide))⟩

end ANMP
